import Mathlib

/-!
Verification of the PIV tool utility layer (src/tool/util.c and the
openssl utility file) against its design specification.

Buffers of C `unsigned char` are modelled as `List Nat` whose relevant
entries lie in [0, 255]; C bitwise operations on bytes are written with
explicit `%` and `/`: for a byte `b`, `b & 0x7f` is `b % 0x80`,
truncating an `int` into an `unsigned char` is `% 0x100`, `x >> 8` is
`x / 0x100`, and `x << 8` is `x * 0x100`.  A C out-parameter is threaded
explicitly: the function receives the cell's old contents and returns its
new contents, so "left unwritten" is "returned unchanged".
-/

namespace PivUtil

/-- Model of `get_length` (src/tool/util.c, lines 157-169).  Decodes the
1/2/3-byte length prefix at the start of `buffer`.  The C function returns
the number of bytes consumed (0 on unsupported forms) and writes the
decoded length through the out-parameter `len`; here the pair
`(consumed, len)` is returned, with `len` the (possibly unchanged)
contents of the out-parameter. -/
def get_length (buffer : List Nat) (len : Nat) : Nat × Nat :=
  if buffer.getD 0 0 < 0x81 then
    (1, buffer.getD 0 0)
  else if buffer.getD 0 0 % 0x80 = 1 then
    (2, buffer.getD 1 0)
  else if buffer.getD 0 0 % 0x80 = 2 then
    (3, buffer.getD 1 0 * 0x100 + buffer.getD 2 0)
  else
    (0, len)

/-- Model of `set_length` (src/tool/util.c, lines 171-185).  Writes the
1/2/3-byte length prefix for `length` and returns `(bytes written,
count)`; each store into an `unsigned char` cell truncates with
`% 0x100`. -/
def set_length (length : Nat) : List Nat × Nat :=
  if length < 0x80 then
    ([length % 0x100], 1)
  else if length < 0xff then
    ([0x81, length % 0x100], 2)
  else
    ([0x82, length / 0x100 % 0x100, length % 0x100], 3)

/-- C1: for every length L in [0, 0xFFFF], decoding the bytes written by
the length encoder returns L together with a consumed count equal to the
encoder's return value: 1 byte for L in [0, 0x7F], 2 bytes for L in
[0x80, 0xFE], and 3 bytes for L in [0xFF, 0xFFFF]. -/
theorem set_get_length_roundtrip (L len0 : Nat) (hL : L ≤ 0xffff) :
    get_length (set_length L).1 len0 = ((set_length L).2, L) ∧
    (set_length L).2 = (if L ≤ 0x7f then 1 else if L ≤ 0xfe then 2 else 3) := by
  unfold set_length get_length
  rcases Nat.lt_or_ge L 0x80 with h1 | h1
  · have e : L % 0x100 = L := Nat.mod_eq_of_lt (by omega)
    simp only [if_pos h1, List.getD_cons_zero, e]
    rw [if_pos (by omega : L < 0x81), if_pos (by omega : L ≤ 0x7f)]
    exact ⟨rfl, rfl⟩
  · rcases Nat.lt_or_ge L 0xff with h2 | h2
    · have e : L % 0x100 = L := Nat.mod_eq_of_lt (by omega)
      simp only [if_neg (by omega : ¬ L < 0x80), if_pos h2, List.getD_cons_zero,
        List.getD_cons_succ, e]
      simp only [if_true]
      rw [if_neg (by omega : ¬ L ≤ 0x7f), if_pos (by omega : L ≤ 0xfe)]
      exact ⟨rfl, rfl⟩
    · simp only [if_neg (by omega : ¬ L < 0x80), if_neg (by omega : ¬ L < 0xff),
        List.getD_cons_zero, List.getD_cons_succ]
      rw [if_pos trivial, if_neg (by omega : ¬ L ≤ 0x7f), if_neg (by omega : ¬ L ≤ 0xfe)]
      refine ⟨?_, rfl⟩
      have e3 : L / 0x100 % 0x100 * 0x100 + L % 0x100 = L := by omega
      rw [e3]
      norm_num

/-- Witness for C1 at the concrete length 0x1234. -/
theorem set_get_length_roundtrip_witness :
    get_length (set_length 0x1234).1 0 = ((set_length 0x1234).2, 0x1234) :=
  (set_get_length_roundtrip 0x1234 0 (by decide)).1

/-- C2: the encoder writes exactly the single byte L when L < 0x80, the
two bytes [0x81, L] when 0x80 ≤ L < 0xFF, and the three bytes
[0x82, high byte of L, low byte of L] when L ≥ 0xFF; in particular
L = 0xFF takes the 3-byte path and encodes as [0x82, 0x00, 0xFF]. -/
theorem set_length_bytes (L : Nat) :
    (L < 0x80 → set_length L = ([L], 1)) ∧
    (0x80 ≤ L → L < 0xff → set_length L = ([0x81, L], 2)) ∧
    (0xff ≤ L → set_length L = ([0x82, L / 0x100 % 0x100, L % 0x100], 3)) ∧
    set_length 0xff = ([0x82, 0x00, 0xff], 3) := by
  refine ⟨fun h1 => ?_, fun h1 h2 => ?_, fun h1 => ?_, by decide⟩
  · unfold set_length
    rw [if_pos h1, Nat.mod_eq_of_lt (by omega)]
  · unfold set_length
    rw [if_neg (by omega), if_pos h2, Nat.mod_eq_of_lt (by omega)]
  · unfold set_length
    rw [if_neg (by omega), if_neg (by omega)]

/-- Witness for C2: a concrete length on each of the three branches. -/
theorem set_length_bytes_witness :
    set_length 0x42 = ([0x42], 1) ∧ set_length 0x90 = ([0x81, 0x90], 2) ∧
    set_length 0x1234 = ([0x82, 0x12, 0x34], 3) :=
  ⟨(set_length_bytes 0x42).1 (by decide),
   (set_length_bytes 0x90).2.1 (by decide) (by decide),
   (set_length_bytes 0x1234).2.2.1 (by decide)⟩

/-- C3: the decoder returns the first byte's value and 1 consumed when
that byte is below 0x81; otherwise, when the low 7 bits of the first byte
equal 1, the single following byte and 2 consumed; otherwise, when the
low 7 bits equal 2, the following two bytes read big-endian and 3
consumed. -/
theorem get_length_branches (buffer : List Nat) (len0 : Nat) :
    (buffer.getD 0 0 < 0x81 →
      get_length buffer len0 = (1, buffer.getD 0 0)) ∧
    (0x81 ≤ buffer.getD 0 0 → buffer.getD 0 0 % 0x80 = 1 →
      get_length buffer len0 = (2, buffer.getD 1 0)) ∧
    (0x81 ≤ buffer.getD 0 0 → buffer.getD 0 0 % 0x80 = 2 →
      get_length buffer len0 = (3, 0x100 * buffer.getD 1 0 + buffer.getD 2 0)) := by
  unfold get_length
  refine ⟨fun h1 => ?_, fun h1 h2 => ?_, fun h1 h2 => ?_⟩
  · rw [if_pos h1]
  · rw [if_neg (by omega), if_pos h2]
  · rw [if_neg (by omega), if_neg (by omega), if_pos h2, Nat.mul_comm]

/-- Witness for C3: a concrete buffer on each of the three branches. -/
theorem get_length_branches_witness :
    get_length [0x05] 7 = (1, 0x05) ∧
    get_length [0x81, 0x90] 7 = (2, 0x90) ∧
    get_length [0x82, 0x01, 0x02] 7 = (3, 0x102) :=
  ⟨(get_length_branches [0x05] 7).1 (by decide),
   (get_length_branches [0x81, 0x90] 7).2.1 (by decide) (by decide),
   (get_length_branches [0x82, 0x01, 0x02] 7).2.2 (by decide) (by decide)⟩

/-- C4: on any buffer whose first byte is at least 0x81 with low 7 bits
above 2 (an unsupported length form), the decoder returns a consumed
count of 0. -/
theorem get_length_unsupported (buffer : List Nat) (len0 : Nat)
    (h1 : 0x81 ≤ buffer.getD 0 0) (h2 : 2 < buffer.getD 0 0 % 0x80) :
    (get_length buffer len0).1 = 0 := by
  unfold get_length
  rw [if_neg (by omega), if_neg (by omega), if_neg (by omega)]

/-- Witness for C4 at the concrete buffer [0x83]. -/
theorem get_length_unsupported_witness : (get_length [0x83] 7).1 = 0 :=
  get_length_unsupported [0x83] 7 (by decide) (by decide)

/-- C10: on the failure branch (first byte at least 0x81 with low 7 bits
above 2) the decoder returns the out-parameter cell unchanged, whatever
its prior contents: the decoded length is only written on a success
branch. -/
theorem get_length_fail_preserves_len (buffer : List Nat) (len0 : Nat)
    (h1 : 0x81 ≤ buffer.getD 0 0) (h2 : 2 < buffer.getD 0 0 % 0x80) :
    get_length buffer len0 = (0, len0) := by
  unfold get_length
  rw [if_neg (by omega), if_neg (by omega), if_neg (by omega)]

/-- Witness for C10 at the concrete buffer [0x83] with prior contents 41. -/
theorem get_length_fail_preserves_len_witness : get_length [0x83] 41 = (0, 41) :=
  get_length_fail_preserves_len [0x83] 41 (by decide) (by decide)

/-- C9: the decoder accepts non-canonical encodings: for every L in
[0, 0xFF] the 3-byte form [0x82, high byte, low byte] decodes to
(3 consumed, L) and the 2-byte form [0x81, L] decodes to (2 consumed, L),
although the encoder emits a shorter form for such L; hence re-encoding a
decoded length need not reproduce the original bytes. -/
theorem get_length_noncanonical (L len0 : Nat) (hL : L ≤ 0xff) :
    get_length [0x82, L / 0x100 % 0x100, L % 0x100] len0 = (3, L) ∧
    get_length [0x81, L] len0 = (2, L) ∧
    (set_length (get_length [0x81, 0x05] 0).2).1 ≠ [0x81, 0x05] := by
  have e0 : L / 0x100 = 0 := Nat.div_eq_of_lt (by omega)
  have e1 : L % 0x100 = L := Nat.mod_eq_of_lt (by omega)
  refine ⟨?_, ?_, by decide⟩
  · unfold get_length
    simp only [List.getD_cons_zero, List.getD_cons_succ]
    rw [if_neg (by omega), if_neg (by decide), if_pos (by decide), e0, e1]
    norm_num
  · unfold get_length
    simp only [List.getD_cons_zero, List.getD_cons_succ]
    rw [if_neg (by omega), if_pos (by decide)]

/-- Witness for C9 at the concrete length 0x05. -/
theorem get_length_noncanonical_witness :
    get_length [0x82, 0x00, 0x05] 9 = (3, 0x05) ∧ get_length [0x81, 0x05] 9 = (2, 0x05) :=
  ⟨(get_length_noncanonical 0x05 9 (by decide)).1,
   (get_length_noncanonical 0x05 9 (by decide)).2.1⟩

/-- The `enum enum_hash` selector produced by command-line parsing
(`hash_arg_SHA1` .. `hash__NULL` in cmdline.h); `NULL` is the
out-of-enumeration selector of the C `default` branch. -/
inductive EnumHash
  | SHA1
  | SHA256
  | SHA384
  | SHA512
  | NULL

/-- Static DigestInfo header template `sha1oid` (src/tool/util.c,
lines 303-306). -/
def sha1oid : List Nat :=
  [0x30, 0x21, 0x30, 0x09, 0x06, 0x05, 0x2B, 0x0E, 0x03, 0x02, 0x1A, 0x05, 0x00,
   0x04, 0x14]

/-- Static DigestInfo header template `sha256oid` (src/tool/util.c,
lines 308-311). -/
def sha256oid : List Nat :=
  [0x30, 0x31, 0x30, 0x0D, 0x06, 0x09, 0x60, 0x86, 0x48, 0x01, 0x65, 0x03, 0x04,
   0x02, 0x01, 0x05, 0x00, 0x04, 0x20]

/-- Static DigestInfo header template `sha384oid` (src/tool/util.c,
lines 313-316). -/
def sha384oid : List Nat :=
  [0x30, 0x41, 0x30, 0x0D, 0x06, 0x09, 0x60, 0x86, 0x48, 0x01, 0x65, 0x03, 0x04,
   0x02, 0x02, 0x05, 0x00, 0x04, 0x30]

/-- Static DigestInfo header template `sha512oid` (src/tool/util.c,
lines 318-321). -/
def sha512oid : List Nat :=
  [0x30, 0x51, 0x30, 0x0D, 0x06, 0x09, 0x60, 0x86, 0x48, 0x01, 0x65, 0x03, 0x04,
   0x02, 0x03, 0x05, 0x00, 0x04, 0x40]

/-- Model of `get_hash` (src/tool/util.c, lines 323-353).  The C function
returns the OpenSSL `EVP_MD*` (NULL on an unsupported selector) and, when
the caller passes an `oid` out-parameter, the static header template and
its length; the returned pointer-plus-template pair is modelled as an
`Option` holding the template written through the out-parameter, `none`
modelling the NULL return of the `hash__NULL`/default branch. -/
def get_hash : EnumHash → Option (List Nat)
  | .SHA1 => some sha1oid
  | .SHA256 => some sha256oid
  | .SHA384 => some sha384oid
  | .SHA512 => some sha512oid
  | .NULL => none

/-- Expected digest length for each supported hash kind (spec section 4.2:
20 bytes for SHA-1, 32/48/64 for SHA-256/384/512). -/
def digest_len : EnumHash → Nat
  | .SHA1 => 20
  | .SHA256 => 32
  | .SHA384 => 48
  | .SHA512 => 64
  | .NULL => 0

/-- Modelled from the spec: the content bytes of each hash algorithm's
OID, the result of OpenSSL's `OBJ_nid2obj` (an external library call) on
the digest NID that `prepare_rsa_signature` receives.  These byte strings
also appear verbatim inside the static header templates of
src/tool/util.c. -/
def hash_oid_content : EnumHash → List Nat
  | .SHA1 => [0x2B, 0x0E, 0x03, 0x02, 0x1A]
  | .SHA256 => [0x60, 0x86, 0x48, 0x01, 0x65, 0x03, 0x04, 0x02, 0x01]
  | .SHA384 => [0x60, 0x86, 0x48, 0x01, 0x65, 0x03, 0x04, 0x02, 0x02]
  | .SHA512 => [0x60, 0x86, 0x48, 0x01, 0x65, 0x03, 0x04, 0x02, 0x03]
  | .NULL => []

/-- Modelled from the spec: DER definite-length encoding used by the
external serializer (1-, 2- or 3-byte form; lengths here never exceed
0xFFFF). -/
def derLen (n : Nat) : List Nat :=
  if n < 0x80 then [n]
  else if n < 0x100 then [0x81, n]
  else [0x82, n / 0x100 % 0x100, n % 0x100]

/-- Modelled from the spec: a DER TLV node — tag byte, definite length,
content. -/
def derTLV (tag : Nat) (content : List Nat) : List Nat :=
  tag :: (derLen content.length ++ content)

/-- Modelled from the spec: OpenSSL's `i2d_X509_SIG` (an external library
treated as a black box), serializing to DER the structure the C code
builds — `DigestInfo ::= SEQUENCE { SEQUENCE { OID, NULL }, OCTET STRING
digest }` per spec section 4.2. -/
def i2d_X509_SIG (oid digest : List Nat) : List Nat :=
  derTLV 0x30 (derTLV 0x30 (derTLV 0x06 oid ++ [0x05, 0x00]) ++ derTLV 0x04 digest)

/-- Model of `prepare_rsa_signature` (src/tool/util.c, lines 282-301).
The C function copies the digest, fills an `X509_SIG` whose algorithm is
`OBJ_nid2obj(nid)` with NULL parameters and whose digest is the input,
serializes it with `i2d_X509_SIG` into the caller's buffer, and returns
`true` unconditionally; the `nid` argument is represented by the hash
kind's OID content bytes.  Returned: the serialized bytes (whose
length the C code stores through `out_len`) and the boolean result. -/
def prepare_rsa_signature (in_ : List Nat) (oid : List Nat) : List Nat × Bool :=
  (i2d_X509_SIG oid in_, true)

/-- The DER serialization of the DigestInfo built by
`prepare_rsa_signature` equals the hash kind's static header template
from src/tool/util.c followed by the digest bytes, whenever the digest
has the hash kind's expected length. -/
theorem i2d_eq_template (h : EnumHash) (oid d : List Nat)
    (hoid : get_hash h = some oid) (hd : d.length = digest_len h) :
    i2d_X509_SIG (hash_oid_content h) d = oid ++ d := by
  cases h
  case NULL => simp [get_hash] at hoid
  all_goals
    simp only [get_hash, Option.some.injEq] at hoid
    subst hoid
    simp only [digest_len] at hd
    simp [i2d_X509_SIG, derTLV, derLen, hash_oid_content, hd,
      sha1oid, sha256oid, sha384oid, sha512oid]

/-- C5: building the DigestInfo for SHA-256 on a digest of 32 zero bytes
yields exactly the 51-byte DER sequence whose first 19 bytes are the
static `sha256oid` template 30 31 30 0D 06 09 60 86 48 01 65 03 04 02 01
05 00 04 20 followed by the 32 zero digest bytes; for every 32-byte
digest the output is that same static header with only the digest body
varying. -/
theorem prepare_rsa_signature_sha256 :
    (prepare_rsa_signature (List.replicate 32 0) (hash_oid_content EnumHash.SHA256)).1 =
      [0x30, 0x31, 0x30, 0x0D, 0x06, 0x09, 0x60, 0x86, 0x48, 0x01, 0x65, 0x03, 0x04,
       0x02, 0x01, 0x05, 0x00, 0x04, 0x20] ++ List.replicate 32 0 ∧
    (prepare_rsa_signature (List.replicate 32 0) (hash_oid_content EnumHash.SHA256)).1.length
      = 51 ∧
    (∀ d : List Nat, d.length = 32 →
      (prepare_rsa_signature d (hash_oid_content EnumHash.SHA256)).1 = sha256oid ++ d) := by
  have key : ∀ d : List Nat, d.length = 32 →
      (prepare_rsa_signature d (hash_oid_content EnumHash.SHA256)).1 = sha256oid ++ d :=
    fun d hd => i2d_eq_template EnumHash.SHA256 sha256oid d rfl hd
  refine ⟨?_, ?_, key⟩
  · rw [key (List.replicate 32 0) (List.length_replicate 32 0)]
    rfl
  · rw [key (List.replicate 32 0) (List.length_replicate 32 0)]
    rfl

/-- Witness for C5 at a concrete 32-byte digest of ones. -/
theorem prepare_rsa_signature_sha256_witness :
    (prepare_rsa_signature (List.replicate 32 1) (hash_oid_content EnumHash.SHA256)).1 =
      sha256oid ++ List.replicate 32 1 :=
  prepare_rsa_signature_sha256.2.2 (List.replicate 32 1) (List.length_replicate 32 1)

/-- C6: whenever the input digest length matches the declared hash kind's
expected size, `prepare_rsa_signature` succeeds (the C function returns
`true` on every path), and its output is the hash kind's static header
template followed by the digest. -/
theorem prepare_rsa_signature_succeeds (h : EnumHash) (oid d : List Nat)
    (hoid : get_hash h = some oid) (hd : d.length = digest_len h) :
    (prepare_rsa_signature d (hash_oid_content h)).2 = true ∧
    (prepare_rsa_signature d (hash_oid_content h)).1 = oid ++ d :=
  ⟨rfl, i2d_eq_template h oid d hoid hd⟩

/-- Witness for C6: SHA-256 with a 32-byte digest. -/
theorem prepare_rsa_signature_succeeds_witness :
    (prepare_rsa_signature (List.replicate 32 0) (hash_oid_content EnumHash.SHA256)).2 = true :=
  (prepare_rsa_signature_succeeds EnumHash.SHA256 sha256oid (List.replicate 32 0) rfl
    (by simp [digest_len])).1

/-- The `enum enum_slot` selector (cmdline.h); `slot__NULL` is the
out-of-enumeration selector of the C `default` branch. -/
inductive EnumSlot
  | slot_arg_9a
  | slot_arg_9c
  | slot_arg_9d
  | slot_arg_9e
  | slot_arg_82
  | slot_arg_83
  | slot_arg_84
  | slot_arg_85
  | slot_arg_86
  | slot_arg_87
  | slot_arg_88
  | slot_arg_89
  | slot_arg_8a
  | slot_arg_8b
  | slot_arg_8c
  | slot_arg_8d
  | slot_arg_8e
  | slot_arg_8f
  | slot_arg_90
  | slot_arg_91
  | slot_arg_92
  | slot_arg_93
  | slot_arg_94
  | slot_arg_95
  | slot__NULL

/-- Modelled from the spec: the card-protocol object identifiers
`YKPIV_OBJ_AUTHENTICATION` .. `YKPIV_OBJ_RETIRED20` are opaque constants
from the external `ykpiv.h` header (not under src/); section 4.3 treats
the table as an enumeration-keyed map whose only distinguished value is
the zero sentinel.  The PIV data-object tags 0x5fc101 .. 0x5fc120 are
used here: `YKPIV_OBJ_CARD_AUTH` is 0x5fc101, `YKPIV_OBJ_AUTHENTICATION`
0x5fc105, `YKPIV_OBJ_SIGNATURE` 0x5fc10a, `YKPIV_OBJ_KEY_MANAGEMENT`
0x5fc10b, and `YKPIV_OBJ_RETIRED1` .. `YKPIV_OBJ_RETIRED20` are
0x5fc10d .. 0x5fc120. -/
def ykpiv_obj_retired (n : Nat) : Nat := 0x5fc10c + n

/-- Model of `get_object_id` (src/tool/util.c, lines 187-268): slot
selector to card object identifier, 0 on `slot__NULL`/default. -/
def get_object_id : EnumSlot → Nat
  | .slot_arg_9a => 0x5fc105
  | .slot_arg_9c => 0x5fc10a
  | .slot_arg_9d => 0x5fc10b
  | .slot_arg_9e => 0x5fc101
  | .slot_arg_82 => ykpiv_obj_retired 1
  | .slot_arg_83 => ykpiv_obj_retired 2
  | .slot_arg_84 => ykpiv_obj_retired 3
  | .slot_arg_85 => ykpiv_obj_retired 4
  | .slot_arg_86 => ykpiv_obj_retired 5
  | .slot_arg_87 => ykpiv_obj_retired 6
  | .slot_arg_88 => ykpiv_obj_retired 7
  | .slot_arg_89 => ykpiv_obj_retired 8
  | .slot_arg_8a => ykpiv_obj_retired 9
  | .slot_arg_8b => ykpiv_obj_retired 10
  | .slot_arg_8c => ykpiv_obj_retired 11
  | .slot_arg_8d => ykpiv_obj_retired 12
  | .slot_arg_8e => ykpiv_obj_retired 13
  | .slot_arg_8f => ykpiv_obj_retired 14
  | .slot_arg_90 => ykpiv_obj_retired 15
  | .slot_arg_91 => ykpiv_obj_retired 16
  | .slot_arg_92 => ykpiv_obj_retired 17
  | .slot_arg_93 => ykpiv_obj_retired 18
  | .slot_arg_94 => ykpiv_obj_retired 19
  | .slot_arg_95 => ykpiv_obj_retired 20
  | .slot__NULL => 0

/-- The `enum enum_algorithm` selector (cmdline.h). -/
inductive EnumAlgorithm
  | algorithm_arg_RSA2048
  | algorithm_arg_RSA1024
  | algorithm_arg_ECCP256
  | algorithm_arg_ECCP384
  | algorithm__NULL

/-- Model of `get_piv_algorithm` (src/tool/util.c, lines 392-406);
`YKPIV_ALGO_RSA1024`/`RSA2048`/`ECCP256`/`ECCP384` are 0x06, 0x07, 0x11,
0x14 in the external `ykpiv.h` header, 0 on `algorithm__NULL`/default. -/
def get_piv_algorithm : EnumAlgorithm → Nat
  | .algorithm_arg_RSA2048 => 0x07
  | .algorithm_arg_RSA1024 => 0x06
  | .algorithm_arg_ECCP256 => 0x11
  | .algorithm_arg_ECCP384 => 0x14
  | .algorithm__NULL => 0

/-- The `enum enum_pin_policy` selector (cmdline.h). -/
inductive EnumPinPolicy
  | pin_policy_arg_never
  | pin_policy_arg_once
  | pin_policy_arg_always
  | pin_policy__NULL

/-- Model of `get_pin_policy` (src/tool/util.c, lines 408-420);
`YKPIV_PINPOLICY_NEVER`/`ONCE`/`ALWAYS` are 1, 2, 3 in the external
`ykpiv.h` header, 0 on `pin_policy__NULL`/default. -/
def get_pin_policy : EnumPinPolicy → Nat
  | .pin_policy_arg_never => 1
  | .pin_policy_arg_once => 2
  | .pin_policy_arg_always => 3
  | .pin_policy__NULL => 0

/-- The `enum enum_touch_policy` selector (cmdline.h). -/
inductive EnumTouchPolicy
  | touch_policy_arg_never
  | touch_policy_arg_always
  | touch_policy__NULL

/-- Model of `get_touch_policy` (src/tool/util.c, lines 422-432);
`YKPIV_TOUCHPOLICY_NEVER`/`ALWAYS` are 1, 2 in the external `ykpiv.h`
header, 0 on `touch_policy__NULL`/default. -/
def get_touch_policy : EnumTouchPolicy → Nat
  | .touch_policy_arg_never => 1
  | .touch_policy_arg_always => 2
  | .touch_policy__NULL => 0

/-- C7: on the selector value outside the supported closed enumeration
(the `__NULL` default of each C enum), every lookup function returns its
documented sentinel — `get_hash` returns NULL and `get_piv_algorithm`,
`get_object_id`, `get_pin_policy`, `get_touch_policy` return 0 — and,
being total functions, none can crash. -/
theorem unsupported_selector_sentinels :
    get_hash EnumHash.NULL = none ∧
    get_piv_algorithm EnumAlgorithm.algorithm__NULL = 0 ∧
    get_object_id EnumSlot.slot__NULL = 0 ∧
    get_pin_policy EnumPinPolicy.pin_policy__NULL = 0 ∧
    get_touch_policy EnumTouchPolicy.touch_policy__NULL = 0 :=
  ⟨rfl, rfl, rfl, rfl, rfl⟩

/-- PKCS#11 return values used by the openssl utility file
(src/unnamed/part_000); `CKR_OK` is 0 and `CKR_FUNCTION_FAILED` 0x06 in
the external PKCS#11 header. -/
def CKR_OK : Nat := 0x00

/-- PKCS#11 failure status returned by the stubs in src/unnamed/part_000. -/
def CKR_FUNCTION_FAILED : Nat := 0x06

/-- OpenSSL `EVP_PKEY` key-type tags distinguished by
src/unnamed/part_000 (`EVP_PKEY_RSA`, `EVP_PKEY_RSA2`, `EVP_PKEY_EC`,
anything else). -/
inductive EvpKeyType
  | RSA
  | RSA2
  | EC
  | other

/-- Model of `do_get_public_key` (src/unnamed/part_000, lines 89-120).
Only the returned status is modelled; the external call
`EC_POINT_point2oct` on the EC branch is represented by its returned
octet count `ecOctLen`, with 0 signalling its failure. -/
def do_get_public_key (keyType : EvpKeyType) (ecOctLen : Nat) : Nat :=
  match keyType with
  | .RSA => CKR_FUNCTION_FAILED
  | .RSA2 => CKR_FUNCTION_FAILED
  | .EC => if ecOctLen = 0 then CKR_FUNCTION_FAILED else CKR_OK
  | .other => CKR_FUNCTION_FAILED

/-- C8: for every RSA public key (either RSA key-type tag), the
public-key-bytes extraction returns the fixed failure status
`CKR_FUNCTION_FAILED`, whatever the external point-serialization would
report: the RSA branch is an unimplemented stub. -/
theorem do_get_public_key_rsa_stub (kt : EvpKeyType) (ecOctLen : Nat)
    (h : kt = EvpKeyType.RSA ∨ kt = EvpKeyType.RSA2) :
    do_get_public_key kt ecOctLen = CKR_FUNCTION_FAILED := by
  rcases h with h | h <;> subst h <;> rfl

/-- Witness for C8 at the `EVP_PKEY_RSA` tag. -/
theorem do_get_public_key_rsa_stub_witness :
    do_get_public_key EvpKeyType.RSA 0 = CKR_FUNCTION_FAILED :=
  do_get_public_key_rsa_stub EvpKeyType.RSA 0 (Or.inl rfl)

end PivUtil
